import Mathlib

/-!
Shallow embedding of the tourist heat-map component of the saferov
repository (file src/components/TouristHeatMap.tsx), together with proofs
of the properties claimed of it.

Modelling conventions:
* JavaScript numbers are modelled as exact rationals.
* The global random generator is modelled as an explicit stream
  rng : Nat -> Rat of draws, each assumed to lie in [0, 1) as
  Math.random does; the i-th synthesized location consumes the six
  consecutive draws rng (6*i) .. rng (6*i+5), in the order the source
  calls Math.random inside the object literal.
* The wall clock is an explicit string parameter t standing for
  new Date().toISOString().
* Fallible and stateful code is modelled by total functions on explicit
  outcome and state values.
-/

namespace SafeRove

/-- Geographic position, fields lat and lng, from the Position interface. -/
structure Position where
  lat : ℚ
  lng : ℚ
deriving DecidableEq, Repr

/-- TouristLocation record from the source interface; the optional TS
fields nationality and groupSize become Option. -/
structure TouristLocation where
  id : String
  position : Position
  count : ℚ
  safetyScore : ℚ
  lastUpdate : String
  nationality : Option String
  groupSize : Option ℚ
deriving DecidableEq, Repr

/-- Safety level of a zone, the four string literals of the TS union type. -/
inductive SafetyLevel where
  | low
  | medium
  | high
  | critical
deriving DecidableEq, Repr

/-- SafetyZone record from the source interface. -/
structure SafetyZone where
  id : String
  name : String
  position : Position
  radius : ℚ
  safetyLevel : SafetyLevel
  color : String
  description : String
deriving DecidableEq, Repr

/-- Named anchor point of the basePositions table inside
generateMockTouristData. -/
structure Anchor where
  lat : ℚ
  lng : ℚ
  name : String
deriving DecidableEq, Repr

/-- Entry basePositions["Delhi"] of the anchor table. -/
def delhiAnchors : List Anchor :=
  [⟨28.6139, 77.2090, "India Gate"⟩,
   ⟨28.6562, 77.2410, "Red Fort"⟩,
   ⟨28.5244, 77.1855, "Qutub Minar"⟩,
   ⟨28.6129, 77.2295, "Connaught Place"⟩,
   ⟨28.5355, 77.2459, "Chandni Chowk"⟩]

/-- Entry basePositions["Agra"] of the anchor table. -/
def agraAnchors : List Anchor :=
  [⟨27.1751, 78.0421, "Taj Mahal"⟩,
   ⟨27.1833, 78.0167, "Agra Fort"⟩,
   ⟨27.2167, 78.0167, "Fatehpur Sikri"⟩]

/-- Entry basePositions["Jaipur"] of the anchor table. -/
def jaipurAnchors : List Anchor :=
  [⟨26.9124, 75.7873, "City Palace"⟩,
   ⟨26.9239, 75.8267, "Hawa Mahal"⟩,
   ⟨26.9859, 75.8513, "Amber Fort"⟩]

/-- Lookup basePositions[city]: the TS object keyed by the three city
names, none when the key is absent. -/
def basePositions (city : String) : Option (List Anchor) :=
  if city = "Delhi" then some delhiAnchors
  else if city = "Agra" then some agraAnchors
  else if city = "Jaipur" then some jaipurAnchors
  else none

/-- Nationality pool of generateMockTouristData. -/
def nationalities : List String :=
  ["Indian", "American", "British", "German", "French"]

/-- JavaScript array indexing with an integer index: undefined (none)
outside the bounds. -/
def jsIndex (xs : List String) (i : ℤ) : Option String :=
  if i < 0 then none else xs.get? i.toNat

/-- Body of the arrow function positions.map((pos, index) => ...) in
generateMockTouristData: builds one TouristLocation from the anchor at
the given index, consuming the six random draws rng (6*i) .. rng (6*i+5)
in source order (lat jitter, lng jitter, count, safetyScore, nationality,
groupSize). -/
def mkTouristLocation (city : String) (rng : ℕ → ℚ) (t : String)
    (i : ℕ) (pos : Anchor) : TouristLocation :=
  { id := "tourist-" ++ city ++ "-" ++ toString i
    position := { lat := pos.lat + (rng (6 * i) - 0.5) * 0.01
                  lng := pos.lng + (rng (6 * i + 1) - 0.5) * 0.01 }
    count := ((⌊rng (6 * i + 2) * 50⌋ : ℤ) : ℚ) + 10
    safetyScore := ((⌊rng (6 * i + 3) * 4⌋ : ℤ) : ℚ) + 6
    lastUpdate := t
    nationality := jsIndex nationalities ⌊rng (6 * i + 4) * 5⌋
    groupSize := some (((⌊rng (6 * i + 5) * 8⌋ : ℤ) : ℚ) + 1) }

/-- generateMockTouristData from the source: looks up the anchor table for
the city, falling back to the Delhi table (the || in the source), and maps
each anchor with its index to a synthesized TouristLocation. -/
def generateMockTouristData (city : String) (rng : ℕ → ℚ) (t : String) :
    List TouristLocation :=
  let positions := (basePositions city).getD delhiAnchors
  positions.enum.map (fun p => mkTouristLocation city rng t p.1 p.2)

/-- Entry baseZones["Delhi"] of the zone table in generateMockSafetyZones. -/
def delhiZones : List SafetyZone :=
  [{ id := "zone-1", name := "Central Delhi",
     position := ⟨28.6139, 77.2090⟩, radius := 2000,
     safetyLevel := .medium, color := "#fbbf24",
     description := "Moderate safety zone with regular patrols" },
   { id := "zone-2", name := "Old Delhi",
     position := ⟨28.6562, 77.2410⟩, radius := 1500,
     safetyLevel := .high, color := "#ef4444",
     description := "High-risk area with increased monitoring" },
   { id := "zone-3", name := "New Delhi",
     position := ⟨28.6129, 77.2295⟩, radius := 3000,
     safetyLevel := .low, color := "#10b981",
     description := "Safe zone with excellent infrastructure" }]

/-- Entry baseZones["Agra"] of the zone table. -/
def agraZones : List SafetyZone :=
  [{ id := "zone-1", name := "Taj Mahal Area",
     position := ⟨27.1751, 78.0421⟩, radius := 1000,
     safetyLevel := .low, color := "#10b981",
     description := "Highly secured tourist area" },
   { id := "zone-2", name := "City Center",
     position := ⟨27.1833, 78.0167⟩, radius := 2000,
     safetyLevel := .medium, color := "#fbbf24",
     description := "Moderate safety with good facilities" }]

/-- Entry baseZones["Jaipur"] of the zone table. -/
def jaipurZones : List SafetyZone :=
  [{ id := "zone-1", name := "Pink City",
     position := ⟨26.9124, 75.7873⟩, radius := 2500,
     safetyLevel := .low, color := "#10b981",
     description := "Well-maintained heritage area" },
   { id := "zone-2", name := "Outskirts",
     position := ⟨26.9859, 75.8513⟩, radius := 3000,
     safetyLevel := .medium, color := "#fbbf24",
     description := "Moderate safety with some concerns" }]

/-- Lookup baseZones[city], none when the key is absent. -/
def baseZones (city : String) : Option (List SafetyZone) :=
  if city = "Delhi" then some delhiZones
  else if city = "Agra" then some agraZones
  else if city = "Jaipur" then some jaipurZones
  else none

/-- generateMockSafetyZones from the source: the zone table entry for the
city, falling back to the Delhi entry (the || in the source). -/
def generateMockSafetyZones (city : String) : List SafetyZone :=
  (baseZones city).getD delhiZones

/-- getSafetyColor from the source. -/
def getSafetyColor (score : ℚ) : String :=
  if score ≥ 8 then "#10b981"
  else if score ≥ 6 then "#fbbf24"
  else if score ≥ 4 then "#f97316"
  else "#ef4444"

/-- getSafetyLevel from the source. -/
def getSafetyLevel (score : ℚ) : String :=
  if score ≥ 8 then "Safe"
  else if score ≥ 6 then "Moderate"
  else if score ≥ 4 then "Caution"
  else "High Risk"

/-- getZoneColor from the source (the default branch is unreachable for
values of SafetyLevel but kept for faithfulness to the switch). -/
def getZoneColor (level : SafetyLevel) : String :=
  match level with
  | .low => "#10b981"
  | .medium => "#fbbf24"
  | .high => "#f97316"
  | .critical => "#ef4444"

/-- Payload of a successful upstream response in fetchTouristData. -/
structure HeatmapPayload where
  tourist_locations : List TouristLocation
  safety_zones : List SafetyZone
  total_tourists : ℚ
  average_safety_score : ℚ
deriving DecidableEq, Repr

/-- Outcome of the upstream fetch call inside fetchTouristData: the fetch
or json call throws, the response is not ok, or an ok parsed payload. -/
inductive ApiOutcome where
  | throws
  | nonOk
  | ok (data : HeatmapPayload)
deriving DecidableEq, Repr

/-- Component state written by fetchTouristData through the React
setters. -/
structure FetchState where
  touristLocations : List TouristLocation
  safetyZones : List SafetyZone
  totalTourists : ℚ
  averageSafetyScore : ℚ
  error : Option String
  loading : Bool
deriving DecidableEq, Repr

/-- fetchTouristData from the source, as a total function from the fetch
outcome to the resulting component state. On an ok response the payload
fields are stored; on a thrown fetch or a non-ok response control reaches
the mock fallback, which stores the synthesized locations and zones and
the totals computed by the two reduce calls. The error state is set to
null at entry and never set afterwards on these paths, and the function
returns normally (no exception escapes). -/
def fetchTouristData (outcome : ApiOutcome) (cityName : String)
    (rng : ℕ → ℚ) (t : String) : FetchState :=
  match outcome with
  | .ok data =>
      { touristLocations := data.tourist_locations
        safetyZones := data.safety_zones
        totalTourists := data.total_tourists
        averageSafetyScore := data.average_safety_score
        error := none
        loading := false }
  | _ =>
      let mockTourists := generateMockTouristData cityName rng t
      let mockZones := generateMockSafetyZones cityName
      let total := mockTourists.foldl (fun sum loc => sum + loc.count) 0
      let avgSafety :=
        mockTourists.foldl (fun sum loc => sum + loc.safetyScore) 0 /
          (mockTourists.length : ℚ)
      { touristLocations := mockTourists
        safetyZones := mockZones
        totalTourists := total
        averageSafetyScore := avgSafety
        error := none
        loading := false }

/-- Squared Euclidean distance in raw lat/lng coordinates. The source
compares Math.sqrt of this quantity on both sides; since the square root
is strictly monotone on nonnegative reals, comparing the squares embeds
the comparison of the roots exactly. -/
def sqDist (a b : Position) : ℚ :=
  (a.lat - b.lat) ^ 2 + (a.lng - b.lng) ^ 2

/-- handleMapClick from the source: reduce over touristLocations with
initial element touristLocations[0], keeping whichever of the accumulator
and the current location is strictly closer to the clicked position. On
the empty list the JS reduce returns the undefined initial value and the
following truthiness guard makes no selection, modelled by none. -/
def handleMapClick (locs : List TouristLocation) (p : Position) :
    Option TouristLocation :=
  match locs with
  | [] => none
  | l0 :: _ =>
      some (locs.foldl
        (fun closest loc =>
          if sqDist loc.position p < sqDist closest.position p then loc
          else closest) l0)

/-- Zero random stream: a valid Math.random trace, every draw in [0, 1). -/
def rngZero : ℕ → ℚ := fun _ => 0

/-- Folding addition of a projected field equals the initial value plus the
sum of the projections. -/
lemma foldl_add_map {α : Type} (f : α → ℚ) :
    ∀ (xs : List α) (a : ℚ),
      xs.foldl (fun sum x => sum + f x) a = a + (xs.map f).sum
  | [], a => by simp
  | x :: xs, a => by
      rw [List.foldl_cons, foldl_add_map f xs (a + f x)]
      simp [add_assoc]

/-- Floor of a unit-interval draw scaled by 4 lies in [0, 3]. -/
lemma floor_mul_four (r : ℚ) (h0 : 0 ≤ r) (h1 : r < 1) :
    0 ≤ ⌊r * 4⌋ ∧ ⌊r * 4⌋ ≤ 3 := by
  constructor
  · exact Int.floor_nonneg.mpr (by nlinarith)
  · have h4 : ⌊r * 4⌋ < 4 := Int.floor_lt.mpr (by push_cast; nlinarith)
    omega

/-- C1: on a thrown upstream fetch or a non-ok response, fetchTouristData
completes with the synthesized mock tourist locations and safety zones and
leaves the error state clear; the embedding of the handler is a total
function, so no exception reaches the caller. -/
theorem C1_fetch_absorbs_upstream_failure (outcome : ApiOutcome)
    (city : String) (rng : ℕ → ℚ) (t : String)
    (h : outcome = ApiOutcome.throws ∨ outcome = ApiOutcome.nonOk) :
    (fetchTouristData outcome city rng t).error = none ∧
    (fetchTouristData outcome city rng t).touristLocations =
      generateMockTouristData city rng t ∧
    (fetchTouristData outcome city rng t).safetyZones =
      generateMockSafetyZones city := by
  rcases h with h | h <;> subst h <;> exact ⟨rfl, rfl, rfl⟩

/-- Witness for C1 at the thrown outcome, city Delhi, zero randomness. -/
theorem C1_witness :
    (ApiOutcome.throws = ApiOutcome.throws ∨
      ApiOutcome.throws = ApiOutcome.nonOk) ∧
    ((fetchTouristData ApiOutcome.throws "Delhi" rngZero "t").error = none ∧
     (fetchTouristData ApiOutcome.throws "Delhi" rngZero "t").touristLocations =
       generateMockTouristData "Delhi" rngZero "t" ∧
     (fetchTouristData ApiOutcome.throws "Delhi" rngZero "t").safetyZones =
       generateMockSafetyZones "Delhi") :=
  ⟨Or.inl rfl,
   C1_fetch_absorbs_upstream_failure ApiOutcome.throws "Delhi" rngZero "t"
     (Or.inl rfl)⟩

/-- C2: for a city other than Delhi, Agra and Jaipur the table lookups
miss, so generateMockTouristData builds its locations from the Delhi
anchor table and generateMockSafetyZones returns the Delhi zone table;
both embeddings are total functions, so neither raises. -/
theorem C2_unknown_city_falls_back (city : String) (rng : ℕ → ℚ)
    (t : String) (h1 : city ≠ "Delhi") (h2 : city ≠ "Agra")
    (h3 : city ≠ "Jaipur") :
    basePositions city = none ∧
    generateMockTouristData city rng t =
      delhiAnchors.enum.map (fun p => mkTouristLocation city rng t p.1 p.2) ∧
    generateMockSafetyZones city = delhiZones := by
  refine ⟨?_, ?_, ?_⟩
  · unfold basePositions
    simp [h1, h2, h3]
  · unfold generateMockTouristData basePositions
    simp [h1, h2, h3]
  · unfold generateMockSafetyZones baseZones
    simp [h1, h2, h3]

/-- Witness for C2 at the unknown city Mumbai. -/
theorem C2_witness :
    ("Mumbai" ≠ "Delhi" ∧ "Mumbai" ≠ "Agra" ∧ "Mumbai" ≠ "Jaipur") ∧
    (basePositions "Mumbai" = none ∧
     generateMockTouristData "Mumbai" rngZero "t" =
       delhiAnchors.enum.map
         (fun p => mkTouristLocation "Mumbai" rngZero "t" p.1 p.2) ∧
     generateMockSafetyZones "Mumbai" = delhiZones) :=
  ⟨⟨by decide, by decide, by decide⟩,
   C2_unknown_city_falls_back "Mumbai" rngZero "t"
     (by decide) (by decide) (by decide)⟩

/-- C4: on the mock fallback path, the stored total equals the sum of the
count fields of the stored locations exactly, and the stored average
safety score equals the arithmetic mean of their safetyScore fields
exactly. -/
theorem C4_mock_totals_exact (outcome : ApiOutcome) (city : String)
    (rng : ℕ → ℚ) (t : String)
    (h : outcome = ApiOutcome.throws ∨ outcome = ApiOutcome.nonOk) :
    (fetchTouristData outcome city rng t).totalTourists =
      ((fetchTouristData outcome city rng t).touristLocations.map
        (fun loc => loc.count)).sum ∧
    (fetchTouristData outcome city rng t).averageSafetyScore =
      ((fetchTouristData outcome city rng t).touristLocations.map
        (fun loc => loc.safetyScore)).sum /
      ((fetchTouristData outcome city rng t).touristLocations.length : ℚ) := by
  rcases h with h | h <;> subst h <;>
    exact ⟨by simp [fetchTouristData, foldl_add_map],
           by simp [fetchTouristData, foldl_add_map]⟩

/-- Witness for C4 at the non-ok outcome, city Agra, zero randomness. -/
theorem C4_witness :
    (ApiOutcome.nonOk = ApiOutcome.throws ∨
      ApiOutcome.nonOk = ApiOutcome.nonOk) ∧
    ((fetchTouristData ApiOutcome.nonOk "Agra" rngZero "t").totalTourists =
      ((fetchTouristData ApiOutcome.nonOk "Agra" rngZero "t").touristLocations.map
        (fun loc => loc.count)).sum ∧
     (fetchTouristData ApiOutcome.nonOk "Agra" rngZero "t").averageSafetyScore =
      ((fetchTouristData ApiOutcome.nonOk "Agra" rngZero "t").touristLocations.map
        (fun loc => loc.safetyScore)).sum /
      ((fetchTouristData ApiOutcome.nonOk "Agra" rngZero "t").touristLocations.length : ℚ)) :=
  ⟨Or.inr rfl,
   C4_mock_totals_exact ApiOutcome.nonOk "Agra" rngZero "t" (Or.inr rfl)⟩

/-- Projection of a TouristLocation onto every field except lastUpdate. -/
def locData (l : TouristLocation) :
    String × Position × ℚ × ℚ × Option String × Option ℚ :=
  (l.id, l.position, l.count, l.safetyScore, l.nationality, l.groupSize)

/-- C6: with the same random stream, two runs of generateMockTouristData
on the same city agree on id, position, count, safetyScore, nationality
and groupSize of every location, whatever the two wall-clock readings
were (only lastUpdate can differ between the runs). -/
theorem C6_mock_data_deterministic (city : String) (rng : ℕ → ℚ)
    (t t' : String) :
    (generateMockTouristData city rng t).map locData =
      (generateMockTouristData city rng t').map locData := by
  unfold generateMockTouristData
  simp only [List.map_map]
  have hfun :
      (locData ∘ fun p : ℕ × Anchor => mkTouristLocation city rng t p.1 p.2) =
      (locData ∘ fun p : ℕ × Anchor => mkTouristLocation city rng t' p.1 p.2) := by
    funext p
    rfl
  rw [hfun]

/-- C7: every city, known or unknown, yields between two and three safety
zones inclusive. -/
theorem C7_zone_count (city : String) :
    2 ≤ (generateMockSafetyZones city).length ∧
    (generateMockSafetyZones city).length ≤ 3 := by
  unfold generateMockSafetyZones baseZones
  split_ifs <;> decide

/-- C9: getSafetyLevel and getSafetyColor classify every rational score by
the same thresholds, band label and marker color corresponding pairwise. -/
theorem C9_color_level_thresholds_agree (s : ℚ) :
    (getSafetyLevel s = "Safe" ↔ getSafetyColor s = "#10b981") ∧
    (getSafetyLevel s = "Moderate" ↔ getSafetyColor s = "#fbbf24") ∧
    (getSafetyLevel s = "Caution" ↔ getSafetyColor s = "#f97316") ∧
    (getSafetyLevel s = "High Risk" ↔ getSafetyColor s = "#ef4444") := by
  unfold getSafetyLevel getSafetyColor
  split_ifs <;> decide

/-- C3: whenever every random draw lies in [0, 1), as Math.random
guarantees, every synthesized location has an integer safetyScore between
1 and 10 inclusive. -/
theorem C3_safetyScore_integer_in_range (city : String) (rng : ℕ → ℚ)
    (t : String) (hr : ∀ i, 0 ≤ rng i ∧ rng i < 1) :
    ∀ loc ∈ generateMockTouristData city rng t,
      (∃ n : ℤ, loc.safetyScore = (n : ℚ)) ∧
      1 ≤ loc.safetyScore ∧ loc.safetyScore ≤ 10 := by
  intro loc hloc
  unfold generateMockTouristData at hloc
  obtain ⟨p, hp, rfl⟩ := List.mem_map.mp hloc
  obtain ⟨h0, h1⟩ := hr (6 * p.1 + 3)
  obtain ⟨hf0, hf3⟩ := floor_mul_four (rng (6 * p.1 + 3)) h0 h1
  have hs : (mkTouristLocation city rng t p.1 p.2).safetyScore =
      ((⌊rng (6 * p.1 + 3) * 4⌋ : ℤ) : ℚ) + 6 := rfl
  have hq0 : (0 : ℚ) ≤ ((⌊rng (6 * p.1 + 3) * 4⌋ : ℤ) : ℚ) := by
    exact_mod_cast hf0
  have hq3 : ((⌊rng (6 * p.1 + 3) * 4⌋ : ℤ) : ℚ) ≤ 3 := by
    exact_mod_cast hf3
  refine ⟨⟨⌊rng (6 * p.1 + 3) * 4⌋ + 6, ?_⟩, ?_, ?_⟩
  · rw [hs]
    push_cast
    ring
  · rw [hs]
    linarith
  · rw [hs]
    linarith

/-- Witness for C3 at city Delhi under the zero random stream. -/
theorem C3_witness :
    (∀ i, 0 ≤ rngZero i ∧ rngZero i < 1) ∧
    ∀ loc ∈ generateMockTouristData "Delhi" rngZero "t",
      (∃ n : ℤ, loc.safetyScore = (n : ℚ)) ∧
      1 ≤ loc.safetyScore ∧ loc.safetyScore ≤ 10 :=
  ⟨fun _ => ⟨le_refl 0, by norm_num [rngZero]⟩,
   C3_safetyScore_integer_in_range "Delhi" rngZero "t"
     (fun _ => ⟨le_refl 0, by norm_num [rngZero]⟩)⟩

/-- Scores of at least six land in the first two bands of
getSafetyLevel. -/
lemma getSafetyLevel_ge_six (s : ℚ) (h : 6 ≤ s) :
    getSafetyLevel s = "Safe" ∨ getSafetyLevel s = "Moderate" := by
  unfold getSafetyLevel
  by_cases h1 : s ≥ 8
  · rw [if_pos h1]
    exact Or.inl rfl
  · rw [if_neg h1, if_pos (show s ≥ 6 from h)]
    exact Or.inr rfl

/-- C8: whenever every random draw lies in [0, 1), every synthesized
location has safetyScore in the set 6, 7, 8, 9, and hence its band under
getSafetyLevel is never Caution and never High Risk. -/
theorem C8_safetyScore_band (city : String) (rng : ℕ → ℚ) (t : String)
    (hr : ∀ i, 0 ≤ rng i ∧ rng i < 1) :
    ∀ loc ∈ generateMockTouristData city rng t,
      (loc.safetyScore = 6 ∨ loc.safetyScore = 7 ∨
       loc.safetyScore = 8 ∨ loc.safetyScore = 9) ∧
      getSafetyLevel loc.safetyScore ≠ "Caution" ∧
      getSafetyLevel loc.safetyScore ≠ "High Risk" := by
  intro loc hloc
  unfold generateMockTouristData at hloc
  obtain ⟨p, hp, rfl⟩ := List.mem_map.mp hloc
  obtain ⟨h0, h1⟩ := hr (6 * p.1 + 3)
  obtain ⟨hf0, hf3⟩ := floor_mul_four (rng (6 * p.1 + 3)) h0 h1
  have hs : (mkTouristLocation city rng t p.1 p.2).safetyScore =
      ((⌊rng (6 * p.1 + 3) * 4⌋ : ℤ) : ℚ) + 6 := rfl
  have hcases : ⌊rng (6 * p.1 + 3) * 4⌋ = 0 ∨ ⌊rng (6 * p.1 + 3) * 4⌋ = 1 ∨
      ⌊rng (6 * p.1 + 3) * 4⌋ = 2 ∨ ⌊rng (6 * p.1 + 3) * 4⌋ = 3 := by
    omega
  have hval : (mkTouristLocation city rng t p.1 p.2).safetyScore = 6 ∨
      (mkTouristLocation city rng t p.1 p.2).safetyScore = 7 ∨
      (mkTouristLocation city rng t p.1 p.2).safetyScore = 8 ∨
      (mkTouristLocation city rng t p.1 p.2).safetyScore = 9 := by
    rw [hs]
    rcases hcases with h | h | h | h <;> rw [h] <;> norm_num
  have h6 : 6 ≤ (mkTouristLocation city rng t p.1 p.2).safetyScore := by
    rcases hval with h | h | h | h <;> rw [h] <;> norm_num
  refine ⟨hval, ?_, ?_⟩ <;>
    rcases getSafetyLevel_ge_six _ h6 with h | h <;> rw [h] <;> decide

/-- Witness for C8 at city Jaipur under the zero random stream. -/
theorem C8_witness :
    (∀ i, 0 ≤ rngZero i ∧ rngZero i < 1) ∧
    ∀ loc ∈ generateMockTouristData "Jaipur" rngZero "t",
      (loc.safetyScore = 6 ∨ loc.safetyScore = 7 ∨
       loc.safetyScore = 8 ∨ loc.safetyScore = 9) ∧
      getSafetyLevel loc.safetyScore ≠ "Caution" ∧
      getSafetyLevel loc.safetyScore ≠ "High Risk" :=
  ⟨fun _ => ⟨le_refl 0, by norm_num [rngZero]⟩,
   C8_safetyScore_band "Jaipur" rngZero "t"
     (fun _ => ⟨le_refl 0, by norm_num [rngZero]⟩)⟩

/-- Step function of the reduce inside handleMapClick: keep whichever of
the accumulator and the current location is strictly closer to the clicked
position. -/
def pickCloser (p : Position) (closest loc : TouristLocation) :
    TouristLocation :=
  if sqDist loc.position p < sqDist closest.position p then loc else closest

/-- Folding pickCloser returns the initial accumulator or a list
element. -/
lemma foldl_pickCloser_mem (p : Position) :
    ∀ (xs : List TouristLocation) (a : TouristLocation),
      xs.foldl (pickCloser p) a = a ∨ xs.foldl (pickCloser p) a ∈ xs
  | [], _ => Or.inl rfl
  | x :: xs, a => by
      rw [List.foldl_cons]
      rcases foldl_pickCloser_mem p xs (pickCloser p a x) with h | h
      · rw [h]
        unfold pickCloser
        split
        · exact Or.inr (List.mem_cons_self x xs)
        · exact Or.inl rfl
      · exact Or.inr (List.mem_cons_of_mem x h)

/-- Folding pickCloser never increases the distance to the clicked
position and ends at most as far as every list element. -/
lemma foldl_pickCloser_le (p : Position) :
    ∀ (xs : List TouristLocation) (a : TouristLocation),
      sqDist (xs.foldl (pickCloser p) a).position p ≤ sqDist a.position p ∧
      ∀ x ∈ xs,
        sqDist (xs.foldl (pickCloser p) a).position p ≤ sqDist x.position p
  | [], a => ⟨le_refl _, by simp⟩
  | x :: xs, a => by
      rw [List.foldl_cons]
      obtain ⟨ih1, ih2⟩ := foldl_pickCloser_le p xs (pickCloser p a x)
      have hstep : sqDist (pickCloser p a x).position p ≤ sqDist a.position p ∧
          sqDist (pickCloser p a x).position p ≤ sqDist x.position p := by
        unfold pickCloser
        split_ifs with hlt
        · exact ⟨le_of_lt hlt, le_refl _⟩
        · exact ⟨le_refl _, le_of_not_lt hlt⟩
      refine ⟨le_trans ih1 hstep.1, ?_⟩
      intro y hy
      rcases List.mem_cons.mp hy with rfl | hy
      · exact le_trans ih1 hstep.2
      · exact ih2 y hy

/-- C10: on a nonempty location list handleMapClick selects a location of
the list whose squared (equivalently, by monotonicity of the square root,
Euclidean) distance to the clicked position is minimal over the list; on
the empty list it selects nothing, and the embedding is total, so nothing
is thrown. -/
theorem C10_click_selects_nearest (locs : List TouristLocation)
    (p : Position) :
    (locs = [] → handleMapClick locs p = none) ∧
    (locs ≠ [] → ∃ sel, handleMapClick locs p = some sel ∧ sel ∈ locs ∧
      ∀ loc ∈ locs, sqDist sel.position p ≤ sqDist loc.position p) := by
  constructor
  · rintro rfl
    rfl
  · intro hne
    match locs with
    | l0 :: rest =>
      refine ⟨(l0 :: rest).foldl (pickCloser p) l0, rfl, ?_, ?_⟩
      · rcases foldl_pickCloser_mem p (l0 :: rest) l0 with h | h
        · rw [h]
          exact List.mem_cons_self _ _
        · exact h
      · exact (foldl_pickCloser_le p (l0 :: rest) l0).2

/-- Demonstration location for the C10 witness. -/
def demoLoc : TouristLocation :=
  { id := "demo", position := ⟨0, 0⟩, count := 1, safetyScore := 6,
    lastUpdate := "t", nationality := none, groupSize := none }

/-- Witness for C10 on a one-element list and the clicked point (1, 1). -/
theorem C10_witness :
    ([demoLoc] ≠ ([] : List TouristLocation)) ∧
    ∃ sel, handleMapClick [demoLoc] ⟨1, 1⟩ = some sel ∧ sel ∈ [demoLoc] ∧
      ∀ loc ∈ [demoLoc],
        sqDist sel.position ⟨1, 1⟩ ≤ sqDist loc.position ⟨1, 1⟩ :=
  ⟨by decide, (C10_click_selects_nearest [demoLoc] ⟨1, 1⟩).2 (by decide)⟩

/-- Arithmetic mean of the safety scores of a list of locations, for
stating the zone-banding claim. -/
def avgScore (locs : List TouristLocation) : ℚ :=
  (locs.map (fun loc => loc.safetyScore)).sum / (locs.length : ℚ)

/-- Modelled from the spec: the correspondence between the four zone
safety levels and the four band labels of getSafetyLevel, following the
documentation (green low-risk safe, yellow medium moderate, orange high
caution, red critical high danger) and the zone color table. -/
def specLevelLabel : SafetyLevel → String
  | .low => "Safe"
  | .medium => "Moderate"
  | .high => "Caution"
  | .critical => "High Risk"

/-- Statement of C5 read as generously as possible: for every zone of the
city there is some nonempty collection of the produced tourist locations
(the ones the zone contains) whose average safety score bands, under the
getSafetyLevel thresholds, to the level of the zone. -/
def C5Statement (city : String) (rng : ℕ → ℚ) (t : String) : Prop :=
  ∀ z ∈ generateMockSafetyZones city,
    ∃ sub : List TouristLocation, sub ≠ [] ∧
      (∀ l ∈ sub, l ∈ generateMockTouristData city rng t) ∧
      getSafetyLevel (avgScore sub) = specLevelLabel z.safetyLevel

/-- Mapped sum over a list whose projections are all equal to a constant
is that constant times the length. -/
lemma sum_map_const_score (c : ℚ) :
    ∀ (xs : List TouristLocation), (∀ l ∈ xs, l.safetyScore = c) →
      (xs.map (fun loc => loc.safetyScore)).sum = c * xs.length
  | [], _ => by simp
  | x :: xs, h => by
      rw [List.map_cons, List.sum_cons,
        sum_map_const_score c xs (fun l hl => h l (List.mem_cons_of_mem x hl)),
        h x (List.mem_cons_self x xs)]
      simp [List.length_cons]
      ring

/-- Average score of a nonempty list with all scores equal to a constant
is that constant. -/
lemma avgScore_const (xs : List TouristLocation) (c : ℚ) (hne : xs ≠ [])
    (h : ∀ l ∈ xs, l.safetyScore = c) : avgScore xs = c := by
  unfold avgScore
  rw [sum_map_const_score c xs h]
  have hlen : (xs.length : ℚ) ≠ 0 := by
    have := List.length_pos.mpr hne
    positivity
  field_simp

/-- Old Delhi zone literal of the Delhi zone table. -/
def oldDelhiZone : SafetyZone :=
  { id := "zone-2", name := "Old Delhi", position := ⟨28.6562, 77.2410⟩,
    radius := 1500, safetyLevel := .high, color := "#ef4444",
    description := "High-risk area with increased monitoring" }

/-- Counterexample to C5 as stated: under the zero random stream every
Delhi location has safetyScore 6, so every nonempty collection of them
averages to 6, banding to Moderate, while the Old Delhi zone of the table
carries the fixed level high (band Caution); hence that zone level is not
derived from the scores of any contained locations. -/
theorem C5_counterexample : ¬ C5Statement "Delhi" rngZero "t" := by
  intro hP
  have hmem : oldDelhiZone ∈ generateMockSafetyZones "Delhi" := by
    have hz : generateMockSafetyZones "Delhi" = delhiZones := by
      simp [generateMockSafetyZones, baseZones]
    rw [hz]
    unfold delhiZones oldDelhiZone
    exact List.mem_cons_of_mem _ (List.mem_cons_self _ _)
  obtain ⟨sub, hne, hsub, hband⟩ := hP oldDelhiZone hmem
  have hmock : ∀ l ∈ generateMockTouristData "Delhi" rngZero "t",
      l.safetyScore = 6 := by
    intro l hl
    unfold generateMockTouristData at hl
    obtain ⟨p, hp, rfl⟩ := List.mem_map.mp hl
    show ((⌊rngZero (6 * p.1 + 3) * 4⌋ : ℤ) : ℚ) + 6 = 6
    norm_num [rngZero]
  have hall : ∀ l ∈ sub, l.safetyScore = 6 :=
    fun l hl => hmock l (hsub l hl)
  rw [avgScore_const sub 6 hne hall] at hband
  have hlv : getSafetyLevel 6 = "Moderate" := by
    norm_num [getSafetyLevel]
  have hlbl : specLevelLabel oldDelhiZone.safetyLevel = "Caution" := rfl
  rw [hlv, hlbl] at hband
  exact absurd hband (by decide)

/-- C5 amended: each safety zone carries a fixed safety level from the
hardcoded per-city zone table, independent of the synthesized tourist
locations and of the random stream — Delhi (and every unknown city, via
the fallback) yields levels medium, high, low; Agra and Jaipur yield
low, medium. -/
theorem C5_amended_zone_levels_fixed (city : String) :
    (generateMockSafetyZones city).map (fun z => z.safetyLevel) =
      (if city = "Agra" then [SafetyLevel.low, SafetyLevel.medium]
       else if city = "Jaipur" then [SafetyLevel.low, SafetyLevel.medium]
       else [SafetyLevel.medium, SafetyLevel.high, SafetyLevel.low]) := by
  by_cases h1 : city = "Delhi"
  · subst h1
    decide
  · by_cases h2 : city = "Agra"
    · subst h2
      decide
    · by_cases h3 : city = "Jaipur"
      · subst h3
        decide
      · simp [generateMockSafetyZones, baseZones, h1, h2, h3, delhiZones]

end SafeRove
